import Mathlib

/-!
Verification development for the pomotui Pomodoro timer.

This file gives a shallow embedding of the timer engine
(`src/pomotui/timer/state.py`, `src/pomotui/timer/pomodoro.py`) and the
statistics aggregator (`src/pomotui/models/statistics.py`), and proves
properties of the embedded definitions.

Modelling conventions:
* wall-clock instants are natural numbers of seconds (the spec scopes out
  sub-second precision); `datetime.now()` becomes an explicit `now` argument
  to every operation that reads the clock;
* Python callbacks (`_on_state_change`, `_on_tick`, `_on_session_complete`)
  are modelled by a synchronous trace: each operation returns, besides the
  updated timer, the list of callback invocations it performed, in order,
  each paired with the timer value visible to the observer at that moment;
* a Python `raise` becomes `Option.none`;
* Python `set` becomes `Finset`, Python `dict` (insertion ordered) becomes an
  association list;
* Python integers are `Int` where a value could conceptually go negative and
  `Nat` where the source only ever stores non-negative values.
-/

namespace Pomotui

/-- States for the Pomodoro timer (`TimerState` in `timer/state.py`). -/
inductive TimerState
  | idle
  | working
  | short_break
  | long_break
  | paused
  deriving DecidableEq, Repr

/-- Check if current state is a break (`TimerState.is_break`). -/
def TimerState.is_break : TimerState → Bool
  | .short_break => true
  | .long_break => true
  | _ => false

/-- Check if timer is actively running (`TimerState.is_active`). -/
def TimerState.is_active : TimerState → Bool
  | .working => true
  | .short_break => true
  | .long_break => true
  | _ => false

/-- Types of pomodoro sessions (`SessionType` in `timer/state.py`). -/
inductive SessionType
  | work
  | short_break
  | long_break
  deriving DecidableEq, Repr

/-- Convert a `TimerState` to `SessionType` (`SessionType.from_state`);
`none` models the `ValueError` raised for non-active states. -/
def SessionType.from_state : TimerState → Option SessionType
  | .working => some .work
  | .short_break => some .short_break
  | .long_break => some .long_break
  | _ => none

/-- The mutable state of `PomodoroTimer` (`timer/pomodoro.py`): the four
configuration fields (already converted to seconds, as `__init__` does) and
the six private attributes set in `__init__`. -/
structure PomodoroTimer where
  work_duration : Nat
  short_break_duration : Nat
  long_break_duration : Nat
  pomodoros_until_long_break : Nat
  _state : TimerState
  _completed_pomodoros : Int
  _time_remaining : Nat
  _session_start_time : Option Nat
  _paused_time_remaining : Option Nat
  _current_task_id : Option Int
  deriving DecidableEq, Repr

/-- `PomodoroTimer.__init__`: durations are given in minutes and stored in
seconds; the timer starts `IDLE` with zeroed counters. -/
def PomodoroTimer.init (work_duration short_break_duration long_break_duration
    pomodoros_until_long_break : Nat) : PomodoroTimer where
  work_duration := work_duration * 60
  short_break_duration := short_break_duration * 60
  long_break_duration := long_break_duration * 60
  pomodoros_until_long_break := pomodoros_until_long_break
  _state := .idle
  _completed_pomodoros := 0
  _time_remaining := 0
  _session_start_time := none
  _paused_time_remaining := none
  _current_task_id := none

/-- The `time_remaining` property: snapshotted value while paused (Python
`self._paused_time_remaining or 0`), `0` while idle or without a start
reference, otherwise `max(0, self._time_remaining - int(elapsed))` with
`elapsed = now - session_start_time`. -/
def PomodoroTimer.time_remaining (t : PomodoroTimer) (now : Nat) : Int :=
  if t._state = .paused then
    ((t._paused_time_remaining.getD 0 : Nat) : Int)
  else if t._state = .idle then
    0
  else
    match t._session_start_time with
    | none => 0
    | some start => max 0 ((t._time_remaining : Int) - ((now : Int) - (start : Int)))

/-- The `total_duration` property: configured nominal duration of the current
active state, `0` otherwise. -/
def PomodoroTimer.total_duration (t : PomodoroTimer) : Nat :=
  match t._state with
  | .working => t.work_duration
  | .short_break => t.short_break_duration
  | .long_break => t.long_break_duration
  | _ => 0

/-- `set_current_task`. -/
def PomodoroTimer.set_current_task (t : PomodoroTimer) (task_id : Option Int) :
    PomodoroTimer :=
  { t with _current_task_id := task_id }

/-- One callback invocation observable by the driving shell. -/
inductive TimerEvent
  | state_change (s : TimerState)
  | tick_note (remaining : Int)
  | session_complete (ty : SessionType) (duration : Nat) (task_id : Option Int)
  deriving DecidableEq, Repr

/-- A trace entry: the callback invocation together with the timer value the
observer would see at the moment the callback fires (callbacks are
synchronous, so the observer can query the engine mid-operation). -/
structure TraceEntry where
  event : TimerEvent
  snapshot : PomodoroTimer
  deriving DecidableEq, Repr

/-- `_change_state`: set the state, then fire the state-change callback. -/
def PomodoroTimer._change_state (t : PomodoroTimer) (new_state : TimerState) :
    PomodoroTimer × List TraceEntry :=
  let t1 := { t with _state := new_state }
  (t1, [⟨.state_change new_state, t1⟩])

/-- `_start_session`: install state, nominal duration and start reference,
then `_change_state`. -/
def PomodoroTimer._start_session (t : PomodoroTimer) (state : TimerState)
    (duration : Nat) (now : Nat) : PomodoroTimer × List TraceEntry :=
  let t1 := { t with _state := state, _time_remaining := duration,
                     _session_start_time := some now }
  t1._change_state state

/-- `start_work_session`. -/
def PomodoroTimer.start_work_session (t : PomodoroTimer) (now : Nat) :
    PomodoroTimer × List TraceEntry :=
  t._start_session .working t.work_duration now

/-- `start_short_break`. -/
def PomodoroTimer.start_short_break (t : PomodoroTimer) (now : Nat) :
    PomodoroTimer × List TraceEntry :=
  t._start_session .short_break t.short_break_duration now

/-- `start_long_break`. -/
def PomodoroTimer.start_long_break (t : PomodoroTimer) (now : Nat) :
    PomodoroTimer × List TraceEntry :=
  t._start_session .long_break t.long_break_duration now

/-- `start_next_session`: context-sensitive transition; the `Paused` state has
no branch in the source, so nothing happens there. -/
def PomodoroTimer.start_next_session (t : PomodoroTimer) (now : Nat) :
    PomodoroTimer × List TraceEntry :=
  if t._state = .idle then
    t.start_work_session now
  else if t._state = .working then
    if (t._completed_pomodoros + 1) % (t.pomodoros_until_long_break : Int) = 0 then
      t.start_long_break now
    else
      t.start_short_break now
  else if t._state = .short_break ∨ t._state = .long_break then
    t.start_work_session now
  else
    (t, [])

/-- `pause`: from an active state, snapshot the live remaining time and go to
`Paused`; no-op otherwise. -/
def PomodoroTimer.pause (t : PomodoroTimer) (now : Nat) :
    PomodoroTimer × List TraceEntry :=
  if t._state.is_active then
    let t1 := { t with _paused_time_remaining := some (t.time_remaining now).toNat }
    t1._change_state .paused
  else
    (t, [])

/-- `resume`: from `Paused` with a snapshot present, pick the state to resume
into (the first test compares the stored `_time_remaining` field against the
work duration, the second compares the snapshot against the short-break
duration), restart the session with the snapshot as its new nominal duration,
and clear the snapshot. -/
def PomodoroTimer.resume (t : PomodoroTimer) (now : Nat) :
    PomodoroTimer × List TraceEntry :=
  if t._state = .paused then
    match t._paused_time_remaining with
    | some p =>
      let resume_state : TimerState :=
        if t._completed_pomodoros = 0 ∨ t._time_remaining ≤ t.work_duration then
          .working
        else if p ≤ t.short_break_duration then
          .short_break
        else
          .long_break
      let (t1, evts) := t._start_session resume_state p now
      ({ t1 with _paused_time_remaining := none }, evts)
    | none => (t, [])
  else
    (t, [])

/-- `toggle_pause`. -/
def PomodoroTimer.toggle_pause (t : PomodoroTimer) (now : Nat) :
    PomodoroTimer × List TraceEntry :=
  if t._state = .paused then
    t.resume now
  else if t._state.is_active then
    t.pause now
  else
    (t, [])

/-- `stop`: clear the start reference, remaining time and snapshot, then go
`Idle`. -/
def PomodoroTimer.stop (t : PomodoroTimer) : PomodoroTimer × List TraceEntry :=
  let t1 := { t with _session_start_time := none, _time_remaining := 0,
                     _paused_time_remaining := none }
  t1._change_state .idle

/-- `reset`: `stop` plus zeroing the completed-pomodoro counter. -/
def PomodoroTimer.reset (t : PomodoroTimer) : PomodoroTimer × List TraceEntry :=
  let (t1, evts) := t.stop
  ({ t1 with _completed_pomodoros := 0 }, evts)

/-- `_complete_session`: derive the session type (`none` models the
`ValueError` from `SessionType.from_state`), increment the pomodoro counter
for work sessions, fire the session-complete callback, then `stop`. -/
def PomodoroTimer._complete_session (t : PomodoroTimer) :
    Option (PomodoroTimer × List TraceEntry) :=
  match SessionType.from_state t._state with
  | none => none
  | some session_type =>
    let duration := t.total_duration
    let task_id := if t._state = .working then t._current_task_id else none
    let t1 :=
      if t._state = .working then
        { t with _completed_pomodoros := t._completed_pomodoros + 1 }
      else t
    let e1 : TraceEntry := ⟨.session_complete session_type duration task_id, t1⟩
    let (t2, evts2) := t1.stop
    some (t2, e1 :: evts2)

/-- `tick`: no-op when not active; otherwise fire the tick callback with the
live remaining time, then complete the session exactly when that remaining
time has reached zero. The `Bool` is the Python return value. -/
def PomodoroTimer.tick (t : PomodoroTimer) (now : Nat) :
    Option (PomodoroTimer × List TraceEntry × Bool) :=
  if t._state.is_active then
    let remaining := t.time_remaining now
    let e0 : TraceEntry := ⟨.tick_note remaining, t⟩
    if remaining ≤ 0 then
      match t._complete_session with
      | none => none
      | some (t2, evts) => some (t2, e0 :: evts, true)
    else
      some (t, [e0], false)
  else
    some (t, [], false)

/-! ## Statistics aggregator (`models/task.py`, `models/statistics.py`)

Timestamps (`datetime` values) are seconds; days are the uniform 86400-second
spans Python's `datetime`/`timedelta` arithmetic uses, so
`datetime(d.year, d.month, d.day, 0, 0, 0)` becomes flooring to a multiple of
86400 and `23:59:59` becomes that midnight plus 86399. -/

/-- `Task` dataclass (`models/task.py`); only fields, the methods are not
needed by the claims. -/
structure Task where
  id : Option Int := none
  name : String := ""
  description : String := ""
  created_at : Nat := 0
  completed_at : Option Nat := none
  color : String := "blue"
  pomodoro_count : Int := 0
  deriving DecidableEq, Repr

/-- `Session` dataclass (`models/task.py`). `session_type` is the raw string
stored in the database, as in the source. -/
structure Session where
  id : Option Int := none
  task_id : Option Int := none
  start_time : Nat := 0
  end_time : Option Nat := none
  duration : Int := 0
  completed : Bool := false
  session_type : String := "work"
  deriving DecidableEq, Repr

/-- Python truthiness of an optional integer (`if session.task_id:`): `None`
and `0` are falsy. -/
def py_truthy : Option Int → Bool
  | none => false
  | some v => v != 0

/-- `DailyStats` dataclass with its default field values. -/
structure DailyStats where
  date : Nat
  total_pomodoros : Nat := 0
  total_duration : Int := 0
  work_sessions : Nat := 0
  break_sessions : Nat := 0
  completed_sessions : Nat := 0
  tasks_worked_on : Nat := 0
  deriving DecidableEq, Repr

/-- `TaskStats` dataclass. -/
structure TaskStats where
  task : Task
  total_sessions : Nat := 0
  total_duration : Int := 0
  first_session : Option Nat := none
  last_session : Option Nat := none
  deriving DecidableEq, Repr

/-- `PeriodStats` dataclass (after `__post_init__`, so the lists start empty). -/
structure PeriodStats where
  start_date : Nat
  end_date : Nat
  total_pomodoros : Nat := 0
  total_duration : Int := 0
  work_sessions : Nat := 0
  break_sessions : Nat := 0
  completed_sessions : Nat := 0
  daily_stats : List DailyStats := []
  task_stats : List TaskStats := []
  deriving DecidableEq, Repr

/-- Midnight of the calendar day containing instant `d`
(`datetime(date.year, date.month, date.day, 0, 0, 0)`). -/
def midnight (d : Nat) : Nat := d / 86400 * 86400

/-- Loop body of `calculate_daily_stats`: account one session into the
accumulated stats and the set of task ids worked on. -/
def daily_step (acc : DailyStats × Finset Int) (s : Session) :
    DailyStats × Finset Int :=
  let stats := { acc.1 with total_duration := acc.1.total_duration + s.duration }
  let acc2 :=
    if s.session_type = "work" then
      ({ stats with work_sessions := stats.work_sessions + 1,
                    total_pomodoros := stats.total_pomodoros + 1 },
       if py_truthy s.task_id then insert (s.task_id.getD 0) acc.2 else acc.2)
    else
      ({ stats with break_sessions := stats.break_sessions + 1 }, acc.2)
  if s.completed then
    ({ acc2.1 with completed_sessions := acc2.1.completed_sessions + 1 }, acc2.2)
  else
    acc2

/-- `StatisticsCalculator.calculate_daily_stats`: filter the sessions whose
start timestamp lies in `[day_start, day_end]` inclusive, fold them through
`daily_step`, then store the cardinality of the task-id set. -/
def calculate_daily_stats (sessions : List Session) (date : Nat) : DailyStats :=
  let day_start := midnight date
  let day_end := day_start + 86399
  let day_sessions := sessions.filter fun s =>
    decide (day_start ≤ s.start_time ∧ s.start_time ≤ day_end)
  let acc := day_sessions.foldl daily_step ({ date := date }, ∅)
  { acc.1 with tasks_worked_on := acc.2.card }

/-- Loop body of the overall-totals pass of `calculate_period_stats`. -/
def period_step (stats : PeriodStats) (s : Session) : PeriodStats :=
  let stats := { stats with total_duration := stats.total_duration + s.duration }
  let stats :=
    if s.session_type = "work" then
      { stats with work_sessions := stats.work_sessions + 1,
                   total_pomodoros := stats.total_pomodoros + 1 }
    else
      { stats with break_sessions := stats.break_sessions + 1 }
  if s.completed then
    { stats with completed_sessions := stats.completed_sessions + 1 }
  else
    stats

/-- The `while current_date <= end_date` loop of `calculate_period_stats`:
the dates visited, starting at `start_date` and stepping by one day. -/
def date_range (current finish : Nat) : List Nat :=
  if _h : current ≤ finish then current :: date_range (current + 86400) finish
  else []
termination_by finish + 1 - current
decreasing_by omega

/-- Append a session to its task's group, preserving Python dict insertion
order (`task_sessions[session.task_id].append(session)`). -/
def add_to_group (groups : List (Int × List Session)) (k : Int) (s : Session) :
    List (Int × List Session) :=
  match groups with
  | [] => [(k, [s])]
  | (k0, l0) :: rest =>
    if k0 = k then (k0, l0 ++ [s]) :: rest
    else (k0, l0) :: add_to_group rest k s

/-- The task-grouping pass of `calculate_period_stats`: work sessions with a
truthy task id, grouped by task id. -/
def group_task_sessions (period_sessions : List Session) :
    List (Int × List Session) :=
  period_sessions.foldl
    (fun groups s =>
      if py_truthy s.task_id ∧ s.session_type = "work" then
        add_to_group groups (s.task_id.getD 0) s
      else groups)
    []

/-- Build one `TaskStats` from a task's grouped session list (`min`/`max`
over a list Python guarantees non-empty; the impossible empty case is the
`ValueError` `min` would raise). -/
def make_task_stats (task : Task) (l : List Session) : Option TaskStats :=
  match l with
  | [] => none
  | s0 :: rest =>
    some { task := task,
           total_sessions := (s0 :: rest).length,
           total_duration := ((s0 :: rest).map Session.duration).sum,
           first_session := some ((rest.map Session.start_time).foldl min s0.start_time),
           last_session := some ((rest.map Session.start_time).foldl max s0.start_time) }

/-- `StatisticsCalculator.calculate_period_stats`: filter to the period,
compute overall totals, one `DailyStats` per loop iteration from `start_date`
to `end_date`, and one `TaskStats` per task with at least one grouped
session. -/
def calculate_period_stats (sessions : List Session) (tasks : List Task)
    (start_date end_date : Nat) : PeriodStats :=
  let period_sessions := sessions.filter fun s =>
    decide (start_date ≤ s.start_time ∧ s.start_time ≤ end_date)
  let stats := period_sessions.foldl period_step
    { start_date := start_date, end_date := end_date }
  let stats := { stats with
    daily_stats := (date_range start_date end_date).map
      (calculate_daily_stats period_sessions) }
  let groups := group_task_sessions period_sessions
  { stats with
    task_stats := tasks.filterMap fun task =>
      match task.id with
      | none => none
      | some tid =>
        match groups.lookup tid with
        | none => none
        | some l => make_task_stats task l }

/-! ## Helper lemmas and fixtures -/

/-- Live remaining time is never negative, in any state. -/
theorem time_remaining_nonneg (t : PomodoroTimer) (now : Nat) :
    0 ≤ t.time_remaining now := by
  unfold PomodoroTimer.time_remaining
  split
  · exact Int.natCast_nonneg _
  · split
    · exact le_refl 0
    · split
      · exact le_refl 0
      · exact le_max_left _ _

/-- A paused timer, as produced by completing one pomodoro, starting a long
break (configured durations: work 300 s, short break 180 s, long break 900 s)
and pausing it 700 s in, so that 200 s remain. -/
def sample_paused_timer : PomodoroTimer :=
  { work_duration := 300, short_break_duration := 180, long_break_duration := 900,
    pomodoros_until_long_break := 4, _state := .paused, _completed_pomodoros := 1,
    _time_remaining := 900, _session_start_time := some 1000,
    _paused_time_remaining := some 200, _current_task_id := none }

/-- A running work session with default-like durations, three pomodoros
already completed and task 7 selected, started at instant 0. -/
def sample_work_timer : PomodoroTimer :=
  { work_duration := 1500, short_break_duration := 300, long_break_duration := 900,
    pomodoros_until_long_break := 4, _state := .working, _completed_pomodoros := 3,
    _time_remaining := 1500, _session_start_time := some 0,
    _paused_time_remaining := none, _current_task_id := some 7 }

/-- Live remaining time of an active session with a start reference. -/
theorem time_remaining_active (t : PomodoroTimer) (now start : Nat)
    (hact : t._state.is_active = true)
    (hstart : t._session_start_time = some start) :
    t.time_remaining now =
      max 0 ((t._time_remaining : Int) - ((now : Int) - (start : Int))) := by
  cases hs : t._state <;>
    simp [PomodoroTimer.time_remaining, hs, hstart] <;>
    simp [hs, TimerState.is_active] at hact

/-- When the elapsed wall-clock time has reached the nominal duration, the
live remaining time is zero. -/
theorem time_remaining_eq_zero (t : PomodoroTimer) (now start : Nat)
    (hact : t._state.is_active = true)
    (hstart : t._session_start_time = some start)
    (helapsed : (t._time_remaining : Int) ≤ (now : Int) - (start : Int)) :
    t.time_remaining now = 0 := by
  rw [time_remaining_active t now start hact hstart]
  omega

/-- Recognize a session-complete callback in a trace. -/
def is_completion_event (e : TraceEntry) : Bool :=
  match e.event with
  | .session_complete _ _ _ => true
  | _ => false

/-- Full description of a completing `tick`: when the live remaining time is
zero on an active state, the tick callback fires first (with the timer still
untouched), then the session-complete callback (with the counter already
bumped for a work session and the state still the finishing one), then the
state-change callback to `Idle`, and the call returns the completion
signal. -/
theorem tick_complete_eq (t : PomodoroTimer) (now : Nat)
    (hact : t._state.is_active = true) (hrem : t.time_remaining now = 0) :
    ∃ ty, SessionType.from_state t._state = some ty ∧
    t.tick now = some
      ({ t with
          _completed_pomodoros :=
            t._completed_pomodoros + (if t._state = .working then 1 else 0),
          _state := .idle, _time_remaining := 0, _session_start_time := none,
          _paused_time_remaining := none },
       [⟨.tick_note 0, t⟩,
        ⟨.session_complete ty t.total_duration
            (if t._state = .working then t._current_task_id else none),
          { t with _completed_pomodoros :=
              t._completed_pomodoros + (if t._state = .working then 1 else 0) }⟩,
        ⟨.state_change .idle,
          { t with
              _completed_pomodoros :=
                t._completed_pomodoros + (if t._state = .working then 1 else 0),
              _state := .idle, _time_remaining := 0, _session_start_time := none,
              _paused_time_remaining := none }⟩],
       true) := by
  cases hs : t._state <;>
    simp [hs, TimerState.is_active] at hact <;>
    simp [PomodoroTimer.tick, hs, hrem, TimerState.is_active,
      PomodoroTimer._complete_session, SessionType.from_state, PomodoroTimer.stop,
      PomodoroTimer._change_state, PomodoroTimer.total_duration] <;>
    rw [← hs]

/-! ## C8: session type derivation -/

/-- C8: converting a timer state to a session type succeeds exactly for the
three active states (`Working → work`, `ShortBreak → short_break`,
`LongBreak → long_break`) and signals an invalid-state error (modelled as
`none`) for `Idle` and `Paused`. -/
theorem from_state_spec :
    SessionType.from_state .working = some .work ∧
    SessionType.from_state .short_break = some .short_break ∧
    SessionType.from_state .long_break = some .long_break ∧
    SessionType.from_state .idle = none ∧
    SessionType.from_state .paused = none ∧
    ∀ s : TimerState, (SessionType.from_state s).isSome = s.is_active := by
  refine ⟨rfl, rfl, rfl, rfl, rfl, ?_⟩
  intro s
  cases s <;> rfl

/-! ## C3: session sequencing -/

/-- C3: `start_next_session` starts a work session from `Idle`; from
`Working` it starts a long break exactly when
`(completed_pomodoros + 1) % pomodoros_until_long_break = 0` and a short
break otherwise; from either break state it starts a work session; from
`Paused` it does nothing. The threshold is positive, as configuration
validation guarantees (a zero threshold would raise `ZeroDivisionError` in
Python). -/
theorem start_next_session_spec (t : PomodoroTimer) (now : Nat)
    (hn : 0 < t.pomodoros_until_long_break) :
    (t._state = .idle → t.start_next_session now = t.start_work_session now) ∧
    (t._state = .working →
      ((t.start_next_session now).1._state = .long_break ↔
        (t._completed_pomodoros + 1) % (t.pomodoros_until_long_break : Int) = 0) ∧
      ((t.start_next_session now).1._state = .long_break ∨
        (t.start_next_session now).1._state = .short_break)) ∧
    (t._state = .short_break ∨ t._state = .long_break →
      t.start_next_session now = t.start_work_session now) ∧
    (t._state = .paused → t.start_next_session now = (t, [])) := by
  refine ⟨?_, ?_, ?_, ?_⟩
  · intro h
    simp [PomodoroTimer.start_next_session, h]
  · intro h
    by_cases hmod : (t._completed_pomodoros + 1) % (t.pomodoros_until_long_break : Int) = 0
    · simp [PomodoroTimer.start_next_session, h, hmod, PomodoroTimer.start_long_break,
        PomodoroTimer._start_session, PomodoroTimer._change_state]
    · simp [PomodoroTimer.start_next_session, h, hmod, PomodoroTimer.start_short_break,
        PomodoroTimer._start_session, PomodoroTimer._change_state]
  · intro h
    rcases h with h | h <;> simp [PomodoroTimer.start_next_session, h]
  · intro h
    simp [PomodoroTimer.start_next_session, h]

/-- Witness for C3 at `sample_work_timer` (three completed pomodoros,
threshold four): the next session after the running work session is a long
break. -/
theorem start_next_session_spec_witness :
    0 < sample_work_timer.pomodoros_until_long_break ∧
    (sample_work_timer.start_next_session 5).1._state = .long_break := by
  refine ⟨by decide, ?_⟩
  have h := start_next_session_spec sample_work_timer 5 (by decide)
  exact (h.2.1 rfl).1.mpr (by decide)

/-! ## C5: pause snapshot and resume restoration -/

/-- C5: pausing an active timer snapshots the live remaining time;
`time_remaining` while paused returns exactly that snapshot at any later
wall-clock instant, and resuming restores an active state whose remaining
time immediately after the resume equals the snapshot. -/
theorem pause_resume_preserves_remaining (t : PomodoroTimer)
    (now1 now2 now3 : Nat) (hact : t._state.is_active = true) :
    ((t.pause now1).1.time_remaining now2 = t.time_remaining now1) ∧
    (((t.pause now1).1.resume now3).1._state.is_active = true) ∧
    (((t.pause now1).1.resume now3).1.time_remaining now3 = t.time_remaining now1) := by
  have hnn : 0 ≤ t.time_remaining now1 := time_remaining_nonneg t now1
  generalize hR : t.time_remaining now1 = r at hnn ⊢
  have hp : (t.pause now1).1 =
      { t with _paused_time_remaining := some r.toNat, _state := .paused } := by
    simp [PomodoroTimer.pause, hact, PomodoroTimer._change_state, hR]
  have hres : ((t.pause now1).1.resume now3).1 =
      { t with
        _state := if t._completed_pomodoros = 0 ∨ t._time_remaining ≤ t.work_duration
          then TimerState.working
          else if r.toNat ≤ t.short_break_duration then TimerState.short_break
          else TimerState.long_break,
        _time_remaining := r.toNat,
        _session_start_time := some now3,
        _paused_time_remaining := none } := by
    rw [hp]
    simp only [PomodoroTimer.resume, PomodoroTimer._start_session,
      PomodoroTimer._change_state]
    simp
  refine ⟨?_, ?_, ?_⟩
  · rw [hp]
    simp [PomodoroTimer.time_remaining, Int.toNat_of_nonneg hnn]
  · rw [hres]
    split
    · rfl
    · split <;> rfl
  · rw [hres]
    split
    · simp [PomodoroTimer.time_remaining]
      omega
    · split <;> (simp [PomodoroTimer.time_remaining]; omega)

/-- Witness for C5: pausing the sample running work session 100 s in
snapshots 1400 s; the snapshot is still reported 5000 s later, and resuming
at instant 9000 restores an active state with 1400 s remaining. -/
theorem pause_resume_preserves_remaining_witness :
    sample_work_timer._state.is_active = true ∧
    (sample_work_timer.pause 100).1.time_remaining 5000 =
      sample_work_timer.time_remaining 100 ∧
    ((sample_work_timer.pause 100).1.resume 9000).1._state.is_active = true ∧
    ((sample_work_timer.pause 100).1.resume 9000).1.time_remaining 9000 =
      sample_work_timer.time_remaining 100 := by
  have h := pause_resume_preserves_remaining sample_work_timer 100 5000 9000 (by decide)
  exact ⟨by decide, h.1, h.2.1, h.2.2⟩

/-! ## C2: completion on elapsed time, then idle no-op -/

/-- C2: on any active state, a `tick` whose elapsed wall-clock time has
reached the nominal duration finalizes the session exactly once (one
session-complete callback; the counter grows by one exactly for `Working`),
returns the completion signal and lands in `Idle`; any subsequent `tick`
while `Idle` returns no signal, fires nothing and leaves the timer
unchanged. -/
theorem tick_completion_then_idle_noop (t : PomodoroTimer) (now start : Nat)
    (hact : t._state.is_active = true)
    (hstart : t._session_start_time = some start)
    (helapsed : (t._time_remaining : Int) ≤ (now : Int) - (start : Int)) :
    ∃ t2 evts, t.tick now = some (t2, evts, true) ∧
      t2._state = .idle ∧
      t2._completed_pomodoros =
        t._completed_pomodoros + (if t._state = .working then 1 else 0) ∧
      evts.countP is_completion_event = 1 ∧
      ∀ now2, t2.tick now2 = some (t2, [], false) := by
  have hrem := time_remaining_eq_zero t now start hact hstart helapsed
  obtain ⟨ty, hty, htick⟩ := tick_complete_eq t now hact hrem
  refine ⟨_, _, htick, rfl, rfl, ?_, ?_⟩
  · simp [is_completion_event]
  · intro now2
    simp [PomodoroTimer.tick, TimerState.is_active]

/-- Witness for C2 at `sample_work_timer`: elapsed 1500 s on a 1500 s work
session completes it and a later tick while idle is a no-op. -/
theorem tick_completion_then_idle_noop_witness :
    sample_work_timer._state.is_active = true ∧
    sample_work_timer._session_start_time = some 0 ∧
    ((sample_work_timer._time_remaining : Int) ≤ (1500 : Int) - (0 : Int)) ∧
    ∃ t2 evts, sample_work_timer.tick 1500 = some (t2, evts, true) ∧
      t2._state = .idle ∧
      t2._completed_pomodoros = sample_work_timer._completed_pomodoros +
        (if sample_work_timer._state = .working then 1 else 0) ∧
      evts.countP is_completion_event = 1 ∧
      ∀ now2, t2.tick now2 = some (t2, [], false) :=
  ⟨by decide, by decide, by decide,
    tick_completion_then_idle_noop sample_work_timer 1500 0 (by decide) (by decide)
      (by decide)⟩

/-! ## C6: tick arithmetic and the tick notification -/

/-- The timer after `sample_work_timer` completes its work session:
counter bumped to four, everything else cleared. -/
def sample_completed_timer : PomodoroTimer :=
  { sample_work_timer with
      _completed_pomodoros := 4, _state := TimerState.idle,
      _time_remaining := 0, _session_start_time := none }

/-- The intermediate timer visible to the session-complete callback: counter
already bumped, state still `Working`. -/
def sample_bumped_timer : PomodoroTimer :=
  { sample_work_timer with _completed_pomodoros := 4 }

/-- Counterexample to C6 as stated: on a tick whose remaining time has
reached zero, the code still fires the tick notification (carrying 0)
before finalizing, in the very call that returns the completion signal —
so the tick notification is not emitted exactly when the remaining time is
positive. -/
theorem tick_note_at_zero_counterexample :
    sample_work_timer.time_remaining 1500 = 0 ∧
    sample_work_timer.tick 1500 = some
      (sample_completed_timer,
       [⟨.tick_note 0, sample_work_timer⟩,
        ⟨.session_complete .work 1500 (some 7), sample_bumped_timer⟩,
        ⟨.state_change .idle, sample_completed_timer⟩], true) := by
  decide

/-- C6 (amended): an active `tick` computes the remaining time as
`max(0, nominal_duration - elapsed)` and always fires the tick notification
carrying that value, also on the finalizing call; it then finalizes and
returns the completion signal exactly when the remaining time has reached
zero, and otherwise returns no-signal leaving the timer unchanged. -/
theorem tick_spec (t : PomodoroTimer) (now start : Nat)
    (hact : t._state.is_active = true)
    (hstart : t._session_start_time = some start) :
    t.time_remaining now =
      max 0 ((t._time_remaining : Int) - ((now : Int) - (start : Int))) ∧
    (0 < t.time_remaining now →
      t.tick now = some (t, [⟨.tick_note (t.time_remaining now), t⟩], false)) ∧
    (t.time_remaining now = 0 →
      ∃ t2 evts, t.tick now = some (t2, ⟨.tick_note 0, t⟩ :: evts, true) ∧
        t2._state = .idle) := by
  refine ⟨time_remaining_active t now start hact hstart, ?_, ?_⟩
  · intro hpos
    simp only [PomodoroTimer.tick, hact, if_true]
    rw [if_neg (by omega)]
  · intro h0
    obtain ⟨ty, hty, htick⟩ := tick_complete_eq t now hact h0
    exact ⟨_, _, htick, rfl⟩

/-- Witness for C6 at `sample_work_timer`, 10 s into the session: remaining
time 1490 s, tick notification carrying 1490, no completion signal. -/
theorem tick_spec_witness :
    sample_work_timer._state.is_active = true ∧
    sample_work_timer._session_start_time = some 0 ∧
    (0 : Int) < sample_work_timer.time_remaining 10 ∧
    sample_work_timer.tick 10 =
      some (sample_work_timer,
        [⟨.tick_note (sample_work_timer.time_remaining 10), sample_work_timer⟩],
        false) := by
  refine ⟨by decide, by decide, by decide, ?_⟩
  exact (tick_spec sample_work_timer 10 0 (by decide) (by decide)).2.1 (by decide)

/-! ## C9: callback ordering during finalization -/

/-- C9: when a session finalizes inside `tick`, the callbacks fire
synchronously and in order: the completed-pomodoro counter is bumped (for a
`Working` session) before the session-complete callback fires; that callback
observes the engine still in the finishing active state and carries the
session type, the state's nominal duration, and the current task id for work
(`none` for breaks); only afterwards does the engine move to `Idle` and fire
the state-change callback. -/
theorem complete_session_event_order (t : PomodoroTimer) (now start : Nat)
    (hact : t._state.is_active = true)
    (hstart : t._session_start_time = some start)
    (helapsed : (t._time_remaining : Int) ≤ (now : Int) - (start : Int)) :
    ∃ ty t_mid t_final,
      SessionType.from_state t._state = some ty ∧
      t_mid = { t with _completed_pomodoros :=
        t._completed_pomodoros + (if t._state = .working then 1 else 0) } ∧
      t_mid._state = t._state ∧
      t_final = { t_mid with
        _state := TimerState.idle, _time_remaining := 0,
        _session_start_time := none, _paused_time_remaining := none } ∧
      t.tick now = some (t_final,
        [⟨.tick_note 0, t⟩,
         ⟨.session_complete ty t.total_duration
            (if t._state = .working then t._current_task_id else none), t_mid⟩,
         ⟨.state_change .idle, t_final⟩], true) := by
  have hrem := time_remaining_eq_zero t now start hact hstart helapsed
  obtain ⟨ty, hty, htick⟩ := tick_complete_eq t now hact hrem
  exact ⟨ty, _, _, hty, rfl, rfl, rfl, htick⟩

/-- Witness for C9 at `sample_work_timer`: the completing tick fires, in
order, the tick callback (timer untouched), the session-complete callback
(counter already 4, state still `Working`, carrying work/1500 s/task 7), and
the state-change callback to `Idle`. -/
theorem complete_session_event_order_witness :
    sample_work_timer.tick 1500 = some
      (sample_completed_timer,
       [⟨.tick_note 0, sample_work_timer⟩,
        ⟨.session_complete .work 1500 (some 7), sample_bumped_timer⟩,
        ⟨.state_change .idle, sample_completed_timer⟩], true) := by
  obtain ⟨ty, t_mid, t_final, hty, hmid, hstate, hfinal, htick⟩ :=
    complete_session_event_order sample_work_timer 1500 0 (by decide) (by decide)
      (by decide)
  rw [show ty = .work by exact Option.some.inj hty.symm] at htick
  subst hmid
  subst hfinal
  simpa using htick

/-! ## C1: resume-state selection -/

/-- Resumed-state selection rule exactly as the claim words it: compare the
snapshotted remaining time against the three configured durations. Written
for comparison with `PomodoroTimer.resume`, which does not do this. -/
def claim_resume_state (t : PomodoroTimer) (snapshot : Nat) : TimerState :=
  if t._completed_pomodoros = 0 ∨ snapshot ≤ t.work_duration then .working
  else if snapshot ≤ t.short_break_duration then .short_break
  else .long_break

/-- Counterexample to C1 as stated: `sample_paused_timer` is paused with a
positive snapshot of 200 s; the claim's rule (200 ≤ work duration 300) picks
`Working`, but the code compares the stored `_time_remaining` field
(900 s, the paused long break's nominal duration) against the work duration
and resumes as `LongBreak`. -/
theorem resume_snapshot_counterexample :
    sample_paused_timer._state = .paused ∧
    sample_paused_timer._paused_time_remaining = some 200 ∧
    0 < 200 ∧
    claim_resume_state sample_paused_timer 200 = .working ∧
    (sample_paused_timer.resume 2000).1._state = .long_break := by
  decide

/-- C1 (amended): `resume` from `Paused` with a positive snapshot resumes as
`Working` when no pomodoro has completed yet or the paused session's stored
nominal duration (`_time_remaining`) — not the snapshot — is at most the
work duration; otherwise as `ShortBreak` when the snapshot is at most the
short-break duration; otherwise as `LongBreak`; and in every case it
restarts the session clock with the snapshot as the new nominal duration and
clears the snapshot. -/
theorem resume_spec (t : PomodoroTimer) (now : Nat) (p : Nat)
    (hs : t._state = .paused) (hp : t._paused_time_remaining = some p)
    (hpos : 0 < p) :
    ((t._completed_pomodoros = 0 ∨ t._time_remaining ≤ t.work_duration) →
      (t.resume now).1._state = .working) ∧
    (¬(t._completed_pomodoros = 0 ∨ t._time_remaining ≤ t.work_duration) →
      p ≤ t.short_break_duration → (t.resume now).1._state = .short_break) ∧
    (¬(t._completed_pomodoros = 0 ∨ t._time_remaining ≤ t.work_duration) →
      t.short_break_duration < p → (t.resume now).1._state = .long_break) ∧
    (t.resume now).1._time_remaining = p ∧
    (t.resume now).1._session_start_time = some now ∧
    (t.resume now).1._paused_time_remaining = none := by
  refine ⟨?_, ?_, ?_, ?_, ?_, ?_⟩ <;>
    simp only [PomodoroTimer.resume, hs, hp, PomodoroTimer._start_session,
      PomodoroTimer._change_state, if_true]
  · intro h
    simp [h]
  · intro h hshort
    simp [h, hshort]
  · intro h hshort
    simp [h, Nat.not_le.mpr hshort]

/-- Witness for C1 (amended) at `sample_paused_timer`: one pomodoro is
completed, the stored nominal duration 900 s exceeds the work duration
300 s, and the 200 s snapshot exceeds the short-break duration 180 s, so the
timer resumes as `LongBreak` with 200 s as the new nominal duration. -/
theorem resume_spec_witness :
    sample_paused_timer._state = .paused ∧
    sample_paused_timer._paused_time_remaining = some 200 ∧
    0 < 200 ∧
    (sample_paused_timer.resume 2000).1._state = .long_break ∧
    (sample_paused_timer.resume 2000).1._time_remaining = 200 ∧
    (sample_paused_timer.resume 2000).1._session_start_time = some 2000 ∧
    (sample_paused_timer.resume 2000).1._paused_time_remaining = none := by
  have h := resume_spec sample_paused_timer 2000 200 (by decide) (by decide) (by decide)
  exact ⟨by decide, by decide, by decide, h.2.2.1 (by decide) (by decide),
    h.2.2.2.1, h.2.2.2.2.1, h.2.2.2.2.2⟩

/-! ## C4: daily statistics -/

/-- Closed form of one `daily_step` application. -/
theorem daily_step_eq (acc : DailyStats × Finset Int) (s : Session) :
    daily_step acc s =
      ({ acc.1 with
          total_duration := acc.1.total_duration + s.duration,
          work_sessions :=
            acc.1.work_sessions + (if s.session_type = "work" then 1 else 0),
          total_pomodoros :=
            acc.1.total_pomodoros + (if s.session_type = "work" then 1 else 0),
          break_sessions :=
            acc.1.break_sessions + (if s.session_type = "work" then 0 else 1),
          completed_sessions :=
            acc.1.completed_sessions + (if s.completed then 1 else 0) },
       if s.session_type = "work" ∧ py_truthy s.task_id then
         insert (s.task_id.getD 0) acc.2
       else acc.2) := by
  unfold daily_step
  by_cases hw : s.session_type = "work" <;> by_cases hc : s.completed <;>
    simp [hw, hc]

/-- The extractor the fold accumulates into its task-id set: the id of a
work session whose task id is truthy. -/
def work_task_id (s : Session) : Option Int :=
  if s.session_type = "work" ∧ py_truthy s.task_id then some (s.task_id.getD 0)
  else none

/-- Closed form of the `calculate_daily_stats` fold. -/
theorem daily_foldl (l : List Session) (st : DailyStats) (ids : Finset Int) :
    l.foldl daily_step (st, ids) =
      ({ st with
          total_duration := st.total_duration + (l.map Session.duration).sum,
          work_sessions :=
            st.work_sessions + l.countP (fun s => decide (s.session_type = "work")),
          total_pomodoros :=
            st.total_pomodoros + l.countP (fun s => decide (s.session_type = "work")),
          break_sessions :=
            st.break_sessions + l.countP (fun s => decide (¬s.session_type = "work")),
          completed_sessions := st.completed_sessions + l.countP Session.completed },
       ids ∪ (l.filterMap work_task_id).toFinset) := by
  induction l generalizing st ids with
  | nil => simp
  | cons s rest ih =>
    rw [List.foldl_cons, daily_step_eq, ih]
    simp only [Prod.mk.injEq]
    constructor
    · simp only [DailyStats.mk.injEq, List.countP_cons, List.map_cons, List.sum_cons]
      by_cases hw : s.session_type = "work" <;> by_cases hc : s.completed <;>
        simp [hw, hc] <;> omega
    · by_cases hw : s.session_type = "work" ∧ py_truthy s.task_id
      · simp [work_task_id, hw, Finset.insert_union]
      · simp [work_task_id, hw]

/-- The day-window filter of `calculate_daily_stats`, as a predicate. -/
def in_day (date : Nat) (s : Session) : Bool :=
  decide (midnight date ≤ s.start_time ∧ s.start_time ≤ midnight date + 86399)

/-- Daily statistics as the (amended) claim words them: over the sessions of
the day, count work sessions (each counting toward `total_pomodoros`
regardless of completion), non-work sessions as breaks, completed sessions,
sum all durations, and count distinct truthy (non-null, non-zero) task ids
among work sessions only. -/
def daily_spec (sessions : List Session) (date : Nat) : DailyStats :=
  let day := sessions.filter (in_day date)
  { date := date,
    total_pomodoros := day.countP (fun s => decide (s.session_type = "work")),
    total_duration := (day.map Session.duration).sum,
    work_sessions := day.countP (fun s => decide (s.session_type = "work")),
    break_sessions := day.countP (fun s => decide (¬s.session_type = "work")),
    completed_sessions := day.countP Session.completed,
    tasks_worked_on := (day.filterMap work_task_id).toFinset.card }

/-- Day number 10, used as the concrete day D of the claim's scenario. -/
def sample_date : Nat := 10 * 86400

/-- The claim's scenario sessions: three on day D — work on task 1, a short
break on task 1, work on task 2, all completed — plus an uncompleted
taskless work session on day D−1. -/
def sample_day_sessions : List Session :=
  [ { task_id := some 1, start_time := sample_date + 100, duration := 1500,
      completed := true, session_type := "work" },
    { task_id := some 1, start_time := sample_date + 2000, duration := 300,
      completed := true, session_type := "short_break" },
    { task_id := some 2, start_time := sample_date + 4000, duration := 1500,
      completed := true, session_type := "work" },
    { task_id := none, start_time := sample_date - 100, duration := 1500,
      completed := false, session_type := "work" } ]

/-- C4 (amended): `calculate_daily_stats` computes exactly the per-day
aggregate described by `daily_spec` — with distinctness over truthy
(non-null and non-zero) task ids — and on the claim's concrete scenario
yields `total_pomodoros = 2`, `work_sessions = 2`, `break_sessions = 1`,
`completed_sessions = 3`, `tasks_worked_on = 2`, `total_duration = 3300`. -/
theorem calculate_daily_stats_spec :
    (∀ sessions date, calculate_daily_stats sessions date = daily_spec sessions date) ∧
    calculate_daily_stats sample_day_sessions sample_date =
      { date := sample_date, total_pomodoros := 2, total_duration := 3300,
        work_sessions := 2, break_sessions := 1, completed_sessions := 3,
        tasks_worked_on := 2 } := by
  constructor
  · intro sessions date
    simp only [calculate_daily_stats, daily_spec, midnight]
    rw [daily_foldl]
    have hf : List.filter
        (fun s => decide (date / 86400 * 86400 ≤ s.start_time ∧
          s.start_time ≤ date / 86400 * 86400 + 86399)) sessions =
        List.filter (in_day date) sessions :=
      List.filter_congr (fun s _ => by simp [in_day, midnight])
    rw [hf]
    simp
  · decide

/-- A work session on day D whose task id is `0`: non-null, but falsy in
Python. -/
def zero_task_session : Session :=
  { task_id := some 0, start_time := sample_date, duration := 1500,
    completed := true, session_type := "work" }

/-- Distinct-task count as the claim words it: distinct non-null task ids
among the day's work sessions. -/
def claim_tasks_worked_on (sessions : List Session) (date : Nat) : Nat :=
  (((sessions.filter (in_day date)).filter
      (fun s => decide (s.session_type = "work"))).filterMap Session.task_id).toFinset.card

/-- Counterexample to C4 as stated: a work session with the non-null task id
`0` is skipped by the code's truthiness test (`if session.task_id:`), so
`tasks_worked_on` is 0 where the claim's "distinct non-null task ids" count
is 1. -/
theorem daily_stats_zero_task_id_counterexample :
    (calculate_daily_stats [zero_task_session] sample_date).tasks_worked_on = 0 ∧
    claim_tasks_worked_on [zero_task_session] sample_date = 1 := by
  decide

/-! ## C7: one daily entry per calendar day of a period -/

/-- The date stored in a daily-stats record is the date asked for. -/
theorem calculate_daily_stats_date (l : List Session) (d : Nat) :
    (calculate_daily_stats l d).date = d := by
  simp only [calculate_daily_stats]
  rw [daily_foldl]

/-- A day with no qualifying session yields the all-zero record. -/
theorem calculate_daily_stats_empty (l : List Session) (d : Nat)
    (h : ∀ s ∈ l, ¬(midnight d ≤ s.start_time ∧ s.start_time ≤ midnight d + 86399)) :
    calculate_daily_stats l d = { date := d } := by
  simp only [calculate_daily_stats]
  have hnil : List.filter
      (fun s => decide (midnight d ≤ s.start_time ∧ s.start_time ≤ midnight d + 86399)) l
      = [] := by
    rw [List.filter_eq_nil_iff]
    intro s hs
    simpa using h s hs
  rw [hnil]
  rfl

/-- The `while` loop visits `start, start + 86400, …`, one instant per day,
`(finish - start) / 86400 + 1` of them. -/
theorem date_range_eq (k : Nat) : ∀ current finish : Nat, current ≤ finish →
    (finish - current) / 86400 = k →
    date_range current finish = List.range' current (k + 1) 86400 := by
  induction k with
  | zero =>
    intro c f hle hdiv
    rw [date_range, dif_pos hle, date_range, dif_neg (by omega)]
    simp [List.range'_succ]
  | succ k ih =>
    intro c f hle hdiv
    rw [date_range, dif_pos hle, List.range'_succ,
      ih (c + 86400) f (by omega) (by omega)]

/-- C7: for midnight-aligned period bounds `start ≤ end` (the claim's
"dates"), `calculate_period_stats` produces exactly one `DailyStats` entry
per calendar day of `[start, end]` inclusive, in date order — the dates are
the consecutive midnights from `start` through `end`'s day, so a 7-day range
yields 7 entries — each entry being the daily statistics of the period's
sessions for its date, and an all-zero record for a day without qualifying
sessions. -/
theorem period_stats_daily_entries (sessions : List Session) (tasks : List Task)
    (start_date end_date : Nat)
    (hmid : start_date % 86400 = 0) (hle : start_date ≤ end_date) :
    (calculate_period_stats sessions tasks start_date end_date).daily_stats.map
        DailyStats.date =
      List.range' start_date (end_date / 86400 - start_date / 86400 + 1) 86400 ∧
    (calculate_period_stats sessions tasks start_date end_date).daily_stats.length =
      end_date / 86400 - start_date / 86400 + 1 ∧
    (∀ d ∈ (calculate_period_stats sessions tasks start_date end_date).daily_stats,
      d = calculate_daily_stats
        (sessions.filter fun s =>
          decide (start_date ≤ s.start_time ∧ s.start_time ≤ end_date)) d.date) ∧
    (∀ d ∈ (calculate_period_stats sessions tasks start_date end_date).daily_stats,
      (∀ s ∈ sessions,
        ¬(midnight d.date ≤ s.start_time ∧ s.start_time ≤ midnight d.date + 86399)) →
      d = { date := d.date }) := by
  have hk : (end_date - start_date) / 86400 = end_date / 86400 - start_date / 86400 := by
    omega
  have hds : (calculate_period_stats sessions tasks start_date end_date).daily_stats =
      (List.range' start_date (end_date / 86400 - start_date / 86400 + 1) 86400).map
        (calculate_daily_stats
          (sessions.filter fun s =>
            decide (start_date ≤ s.start_time ∧ s.start_time ≤ end_date))) := by
    simp only [calculate_period_stats]
    rw [date_range_eq (end_date / 86400 - start_date / 86400) start_date end_date hle
      (by omega)]
  refine ⟨?_, ?_, ?_, ?_⟩
  · rw [hds, List.map_map]
    have : (DailyStats.date ∘ calculate_daily_stats
        (sessions.filter fun s =>
          decide (start_date ≤ s.start_time ∧ s.start_time ≤ end_date))) = id := by
      funext d
      simp [calculate_daily_stats_date]
    rw [this, List.map_id]
  · rw [hds, List.length_map, List.length_range']
  · intro d hd
    rw [hds] at hd
    obtain ⟨x, _, hx⟩ := List.mem_map.mp hd
    rw [← hx, calculate_daily_stats_date]
  · intro d hd hempty
    rw [hds] at hd
    obtain ⟨x, _, hx⟩ := List.mem_map.mp hd
    have hxd : d.date = x := by rw [← hx, calculate_daily_stats_date]
    rw [hxd] at hempty
    rw [← hx, calculate_daily_stats_date]
    exact calculate_daily_stats_empty _ x fun s hs =>
      hempty s (List.mem_filter.mp hs).1

/-- Witness for C7: an empty 7-day period (day 0 through the last second of
day 6) yields exactly 7 daily entries, dated at the 7 midnights. -/
theorem period_stats_daily_entries_witness :
    (0 : Nat) % 86400 = 0 ∧ (0 : Nat) ≤ 604799 ∧
    (calculate_period_stats [] [] 0 604799).daily_stats.length = 7 ∧
    (calculate_period_stats [] [] 0 604799).daily_stats.map DailyStats.date =
      [0, 86400, 172800, 259200, 345600, 432000, 518400] := by
  have h := period_stats_daily_entries [] [] 0 604799 rfl (by omega)
  refine ⟨rfl, by omega, ?_, ?_⟩
  · rw [h.2.1]
  · rw [h.1]
    decide

/-! ## C10: invariant of all reachable states -/

/-- One public operation of the engine, paired at run time with the
wall-clock instant at which the driving shell invokes it. -/
inductive Op
  | start_work
  | start_short
  | start_long
  | start_next
  | pause_cmd
  | resume_cmd
  | toggle
  | stop_cmd
  | reset_cmd
  | tick_cmd
  | set_task (id : Option Int)
  deriving DecidableEq, Repr

/-- Apply one public operation, discarding callbacks and return values (for
`tick`, the impossible invalid-state error leaves the timer unchanged). -/
def apply_op (t : PomodoroTimer) : Op × Nat → PomodoroTimer
  | (.start_work, now) => (t.start_work_session now).1
  | (.start_short, now) => (t.start_short_break now).1
  | (.start_long, now) => (t.start_long_break now).1
  | (.start_next, now) => (t.start_next_session now).1
  | (.pause_cmd, now) => (t.pause now).1
  | (.resume_cmd, now) => (t.resume now).1
  | (.toggle, now) => (t.toggle_pause now).1
  | (.stop_cmd, _) => t.stop.1
  | (.reset_cmd, _) => t.reset.1
  | (.tick_cmd, now) => ((t.tick now).map Prod.fst).getD t
  | (.set_task id, _) => t.set_current_task id

/-- Run a sequence of timed public operations from a timer state. -/
def run (t : PomodoroTimer) (ops : List (Op × Nat)) : PomodoroTimer :=
  ops.foldl apply_op t

/-- The invariant: whenever the engine is `Paused` a remaining-time snapshot
is present (so `resume` from `Paused` never falls through its snapshot
guard), and the completed-pomodoro counter is non-negative. -/
def TimerInv (t : PomodoroTimer) : Prop :=
  (t._state = .paused → t._paused_time_remaining.isSome) ∧
  0 ≤ t._completed_pomodoros

/-- Every single public operation preserves the invariant. -/
theorem apply_op_inv (t : PomodoroTimer) (op : Op × Nat) (h : TimerInv t) :
    TimerInv (apply_op t op) := by
  obtain ⟨h1, h2⟩ := h
  obtain ⟨o, now⟩ := op
  cases o <;> cases hs : t._state <;>
    simp_all [apply_op, PomodoroTimer.start_work_session,
      PomodoroTimer.start_short_break, PomodoroTimer.start_long_break,
      PomodoroTimer.start_next_session, PomodoroTimer.pause, PomodoroTimer.resume,
      PomodoroTimer.toggle_pause, PomodoroTimer.stop, PomodoroTimer.reset,
      PomodoroTimer.tick, PomodoroTimer.set_current_task,
      PomodoroTimer._start_session, PomodoroTimer._change_state,
      PomodoroTimer._complete_session, SessionType.from_state,
      PomodoroTimer.total_duration, TimerState.is_active, TimerInv] <;>
    (try split) <;> simp_all <;> (try omega) <;> (try split) <;> (try split) <;>
    simp_all

/-- C10: from a freshly constructed timer, every state reachable by any
sequence of the public operations satisfies the invariant. -/
theorem reachable_invariant (w s l n : Nat) (ops : List (Op × Nat)) :
    TimerInv (run (PomodoroTimer.init w s l n) ops) := by
  have hinit : TimerInv (PomodoroTimer.init w s l n) := by
    simp [TimerInv, PomodoroTimer.init]
  suffices h : ∀ t, TimerInv t → TimerInv (run t ops) from h _ hinit
  induction ops with
  | nil => exact fun t ht => ht
  | cons op rest ih => exact fun t ht => ih (apply_op t op) (apply_op_inv t op ht)

end Pomotui
